import Mathlib

/-!
Verification of the PDF markup editor (frontend annotation engine).

The JavaScript sources are embedded shallowly:
* numbers are modelled as `ℚ` (the scripts only perform exact-on-doubles
  arithmetic in the properties we verify; all verified facts are independent
  of floating-point rounding),
* `null`/`undefined` fields become `Option`,
* JS falsiness guards (`x || d`) on numbers and strings become the
  `jsOr*` helpers below,
* the process-wide mutable `window.PdfEditor.state` record (state.js)
  becomes the structure `St`, and every function mutating it becomes a
  function `St → St`.
-/

namespace PdfEditor

/-- Model of the JS guard `q || d` on a number: `0` (and `NaN`, which never
arises in the verified paths) is falsy, every other number is truthy. -/
def jsOrQ (q d : ℚ) : ℚ := if q = 0 then d else q

/-- Model of `q || d` where `q` may also be `undefined`/`null` (`none`). -/
def jsOrOptQ (o : Option ℚ) (d : ℚ) : ℚ :=
  match o with
  | none => d
  | some v => if v = 0 then d else v

/-- Model of the JS guard `s || d` on a string: the empty string is falsy. -/
def jsOrStr (s d : String) : String := if s = "" then d else s

/-- Model of `s || d` where `s` may also be `undefined`/`null`. -/
def jsOrOptStr (o : Option String) (d : String) : String :=
  match o with
  | none => d
  | some v => if v = "" then d else v

@[simp] theorem jsOrQ_zero_default (q : ℚ) : jsOrQ q 0 = q := by
  unfold jsOrQ; split <;> simp_all

@[simp] theorem jsOrQ_of_ne (q d : ℚ) (h : q ≠ 0) : jsOrQ q d = q := by
  simp [jsOrQ, h]

@[simp] theorem jsOrOptQ_some_of_ne (v d : ℚ) (h : v ≠ 0) :
    jsOrOptQ (some v) d = v := by simp [jsOrOptQ, h]

@[simp] theorem jsOrOptQ_none (d : ℚ) : jsOrOptQ none d = d := rfl

@[simp] theorem jsOrStr_of_ne (s d : String) (h : s ≠ "") : jsOrStr s d = s := by
  simp [jsOrStr, h]

@[simp] theorem jsOrOptStr_some_of_ne (v d : String) (h : v ≠ "") :
    jsOrOptStr (some v) d = v := by simp [jsOrOptStr, h]

@[simp] theorem jsOrOptStr_none (d : String) : jsOrOptStr none d = d := rfl

/-- A point of a freehand ink stroke, in normalized page coordinates. -/
abbrev Point : Type := ℚ × ℚ

/-- Normalized bounds record `\x7bx, y, width, height\x7d` (markup-tools.js,
`normalizeBounds`; all fields are fractions of the page size). -/
structure Bounds where
  x : ℚ
  y : ℚ
  width : ℚ
  height : ℚ
deriving DecidableEq

/-- The closed set of markup variants used by the editor (the JS code stores
them as the strings "highlight" / "ink" / "text" / "comment"). -/
inductive MarkupType where
  | highlight
  | ink
  | text
  | comment
deriving DecidableEq

/-- One annotation record, as pushed into `state.markups`.  Fields that only
some variants carry are `Option`s (absent = `undefined` in JS). -/
structure Markup where
  id : String
  page : ℕ
  type : MarkupType
  bounds : Option Bounds
  points : Option (List Point)
  color : Option String
  strokeWidth : Option ℚ
  text : Option String
  fontSize : Option ℚ
deriving DecidableEq

/-- A markup with every optional field absent; concrete markups are built
from it with structure-update syntax. -/
def baseMarkup : Markup :=
  { id := "", page := 0, type := MarkupType.highlight, bounds := none,
    points := none, color := none, strokeWidth := none, text := none,
    fontSize := none }

/-- JS `Math.round` for the non-negative values that occur in the editor:
round half away from zero, i.e. `⌊q + 1/2⌋`. -/
def jsRound (q : ℚ) : ℤ := ⌊q + 1 / 2⌋

/-- markup-tools.js `normalizeBounds(x, y, w, h, pageWidth, pageHeight)`:
convert a pixel rectangle to fractional bounds. -/
def normalizeBounds (x y w h pageWidth pageHeight : ℚ) : Bounds :=
  { x := x / pageWidth, y := y / pageHeight,
    width := w / pageWidth, height := h / pageHeight }

/-- markup-tools.js `decimatePoints(pts, maxPts)`: if the sequence is longer
than `maxPts`, resample `maxPts` points at uniform stride
`(pts.length - 1) / (maxPts - 1)`, keeping the first and last point;
otherwise return the sequence unchanged.  `pts.getD idx (0, 0)` models the
JS array access `pts[idx]`, whose index is always in range. -/
def decimatePoints (pts : List Point) (maxPts : ℕ) : List Point :=
  if pts.length ≤ maxPts then pts
  else
    (List.range maxPts).map (fun (i : ℕ) =>
      pts.getD
        (min (jsRound ((i : ℚ) * (((pts.length : ℚ) - 1) / ((maxPts : ℚ) - 1)))).toNat
          (pts.length - 1))
        (0, 0))

theorem decimatePoints_length_le (pts : List Point) (maxPts : ℕ) :
    (decimatePoints pts maxPts).length ≤ maxPts := by
  unfold decimatePoints
  split
  · omega
  · rw [List.length_map, List.length_range]

theorem decimatePoints_length_eq_of_lt (pts : List Point) (maxPts : ℕ)
    (h : maxPts < pts.length) : (decimatePoints pts maxPts).length = maxPts := by
  unfold decimatePoints
  split
  · omega
  · rw [List.length_map, List.length_range]

theorem decimatePoints_of_le (pts : List Point) (maxPts : ℕ)
    (h : pts.length ≤ maxPts) : decimatePoints pts maxPts = pts := by
  unfold decimatePoints
  simp [h]

theorem decimatePoints_idem (pts : List Point) (maxPts : ℕ) :
    decimatePoints (decimatePoints pts maxPts) maxPts = decimatePoints pts maxPts :=
  decimatePoints_of_le _ _ (decimatePoints_length_le pts maxPts)

theorem jsRound_intCast (n : ℤ) : jsRound (n : ℚ) = n := by
  unfold jsRound
  rw [Int.floor_eq_iff]
  constructor
  · linarith
  · linarith

theorem jsRound_zero : jsRound 0 = 0 := by
  have h := jsRound_intCast 0
  simpa using h

theorem decimatePoints_head? (pts : List Point) (maxPts : ℕ) (h : 2 ≤ maxPts) :
    (decimatePoints pts maxPts).head? = pts.head? := by
  by_cases hle : pts.length ≤ maxPts
  · rw [decimatePoints_of_le pts maxPts hle]
  · obtain ⟨m, rfl⟩ : ∃ m, maxPts = m + 1 := ⟨maxPts - 1, by omega⟩
    obtain ⟨a, t, rfl⟩ : ∃ a t, pts = a :: t := by
      cases pts with
      | nil => simp at hle
      | cons a t => exact ⟨a, t, rfl⟩
    unfold decimatePoints
    rw [if_neg hle, List.range_succ_eq_map, List.map_cons, List.head?_cons,
      List.head?_cons]
    simp [jsRound_zero]

theorem decimatePoints_getLast? (pts : List Point) (maxPts : ℕ) (h : 2 ≤ maxPts) :
    (decimatePoints pts maxPts).getLast? = pts.getLast? := by
  by_cases hle : pts.length ≤ maxPts
  · rw [decimatePoints_of_le pts maxPts hle]
  · have hpos : 0 < pts.length := by omega
    unfold decimatePoints
    rw [if_neg hle]
    rw [List.getLast?_eq_getElem?, List.getLast?_eq_getElem?]
    rw [List.length_map, List.length_range, List.getElem?_map,
      List.getElem?_range (by omega : maxPts - 1 < maxPts)]
    have hM : ((maxPts - 1 : ℕ) : ℚ) = (maxPts : ℚ) - 1 := by
      have : (1 : ℕ) ≤ maxPts := by omega
      push_cast [this]
      ring
    have hMne : ((maxPts : ℚ) - 1) ≠ 0 := by
      have : (2 : ℚ) ≤ (maxPts : ℚ) := by exact_mod_cast h
      intro hc
      rw [sub_eq_zero] at hc
      rw [hc] at this
      norm_num at this
    have hmul : ((maxPts - 1 : ℕ) : ℚ) * (((pts.length : ℚ) - 1) / ((maxPts : ℚ) - 1))
        = ((pts.length : ℚ) - 1) := by
      rw [hM, mul_comm, div_mul_cancel₀ _ hMne]
    have hcast : ((pts.length : ℚ) - 1) = (((pts.length : ℤ) - 1 : ℤ) : ℚ) := by
      push_cast
      ring
    have hround : (jsRound (((maxPts - 1 : ℕ) : ℚ) *
        (((pts.length : ℚ) - 1) / ((maxPts : ℚ) - 1)))).toNat = pts.length - 1 := by
      rw [hmul, hcast, jsRound_intCast]
      omega
    simp only [Option.map_some']
    rw [hround, min_self]
    rw [List.getD_eq_getElem?_getD, List.getElem?_eq_getElem (by omega : pts.length - 1 < pts.length)]
    rfl

/-- C9: for every point sequence and every target `maxCount ≥ 2`,
`decimatePoints` returns a sequence of length at most the target whose first
and last elements equal those of the input, returns the input unchanged when
it is already short enough, and is idempotent at the same target count
(determinism is inherent: it is a pure function of its arguments). -/
theorem decimatePoints_correct (pts : List Point) (maxPts : ℕ) (h : 2 ≤ maxPts) :
    (decimatePoints pts maxPts).length ≤ maxPts ∧
    (pts.length ≤ maxPts → decimatePoints pts maxPts = pts) ∧
    (decimatePoints pts maxPts).head? = pts.head? ∧
    (decimatePoints pts maxPts).getLast? = pts.getLast? ∧
    decimatePoints (decimatePoints pts maxPts) maxPts = decimatePoints pts maxPts :=
  ⟨decimatePoints_length_le pts maxPts,
    decimatePoints_of_le pts maxPts,
    decimatePoints_head? pts maxPts h,
    decimatePoints_getLast? pts maxPts h,
    decimatePoints_idem pts maxPts⟩

/-- Concrete five-point stroke used to witness `decimatePoints_correct`. -/
def c9pts : List Point :=
  [(0, 0), (1, 0), (2, 0), (3, 0), (4, 0)]

/-- Witness for C9: `decimatePoints_correct` applied at the concrete
five-point stroke with target count 3. -/
theorem decimatePoints_correct_witness :
    2 ≤ 3 ∧
    ((decimatePoints c9pts 3).length ≤ 3 ∧
      (c9pts.length ≤ 3 → decimatePoints c9pts 3 = c9pts) ∧
      (decimatePoints c9pts 3).head? = c9pts.head? ∧
      (decimatePoints c9pts 3).getLast? = c9pts.getLast? ∧
      decimatePoints (decimatePoints c9pts 3) 3 = decimatePoints c9pts 3) :=
  ⟨by norm_num, decimatePoints_correct c9pts 3 (by norm_num)⟩

/-- One entry of `state.linkedOptions` (context-selector.js,
`loadLinkedOptions`): a scope actually linked to the current document. -/
structure LinkedOption where
  linked_type : String
  linked_id : Int
deriving DecidableEq

/-- The save-state machine states of save-manager.js (`state.saveStatus`). -/
inductive SaveStatus where
  | idle
  | saving
  | saved
  | error
deriving DecidableEq

/-- The process-wide mutable editor state of state.js, restricted to the
fields the verified components read or write.  The last four fields are
observations of the runtime that the JS keeps implicitly:
`timerPending` models a pending `state.saveTimeout` debounce timer,
`inflight` counts `PUT /markups` requests sent but not yet settled,
`putsStarted` counts all `PUT /markups` requests ever started, and
`savePdfCalls` counts invocations of `performSavePdf` (the
`POST /save-pdf` document-flatten trigger). -/
structure St where
  markups : List Markup
  linkedOptions : List LinkedOption
  currentLinkedType : Option String
  currentLinkedId : Option Int
  undoStack : List (List Markup)
  redoStack : List (List Markup)
  saveStatus : SaveStatus
  lastSaveError : String
  dirty : Bool
  isUndoRedo : Bool
  timerPending : Bool
  inflight : ℕ
  putsStarted : ℕ
  savePdfCalls : ℕ
deriving DecidableEq

/-- Outcome of the `fetch` for `PUT /markups`: `ok` is a 2xx response;
`httpError detail` is a non-ok response whose parsed error message is
`detail` (`errBody.detail || res.statusText`); `networkError msg` is a
rejected fetch whose error message is `msg`. -/
inductive FetchResult where
  | ok
  | httpError (detail : String)
  | networkError (msg : String)
deriving DecidableEq

/-- save-manager.js `scheduleSave()`: set `dirty`, clear any pending
debounce timer and start a new 500 ms one (single pending-timer slot). -/
def scheduleSave (st : St) : St :=
  { st with dirty := true, timerPending := true }

/-- Synchronous prefix of save-manager.js `performSave(skipSavePdf)`
(lines 42–45): if not dirty and not in error state, resolve immediately
without sending; otherwise transition to `saving` and start the
`PUT /markups` request.  The returned flag tells whether a request was
started. -/
def performSaveStart (st : St) : St × Bool :=
  if st.dirty = false ∧ st.saveStatus ≠ SaveStatus.error then (st, false)
  else
    ({ st with
        saveStatus := SaveStatus.saving
        inflight := st.inflight + 1
        putsStarted := st.putsStarted + 1 }, true)

/-- The body save-manager.js sends with `PUT /markups` (lines 48–52). -/
structure MarkupsPutBody where
  linked_type : Option String
  linked_id : Option Int
  markups : List Markup
deriving DecidableEq

/-- The `PUT /markups` body assembled from the current state. -/
def putBody (st : St) : MarkupsPutBody :=
  { linked_type := st.currentLinkedType,
    linked_id := st.currentLinkedId,
    markups := st.markups }

/-- Continuation of `performSave` once its request settles (the `then` /
`catch` of lines 53–73): on success clear `dirty`, go to `saved`, and —
unless `skipSavePdf` — invoke `performSavePdf`; on any rejection record the
message in `lastSaveError`, go to `error`, and leave `dirty` and
`markups` untouched.  The returned flag is the promise value. -/
def performSaveSettle (skipSavePdf : Bool) (resp : FetchResult) (st : St) : St × Bool :=
  match resp with
  | FetchResult.ok =>
      ({ st with
          dirty := false
          saveStatus := SaveStatus.saved
          inflight := st.inflight - 1
          savePdfCalls := st.savePdfCalls + (if skipSavePdf then 0 else 1) }, true)
  | FetchResult.httpError detail =>
      ({ st with
          lastSaveError := detail
          saveStatus := SaveStatus.error
          inflight := st.inflight - 1 }, false)
  | FetchResult.networkError msg =>
      ({ st with
          lastSaveError := msg
          saveStatus := SaveStatus.error
          inflight := st.inflight - 1 }, false)

/-- save-manager.js `performSave(skipSavePdf)` run to completion against a
given server response: the synchronous start followed by its settlement. -/
def performSave (skipSavePdf : Bool) (resp : FetchResult) (st : St) : St × Bool :=
  let started := performSaveStart st
  if started.2 then performSaveSettle skipSavePdf resp started.1
  else (started.1, true)

/-- The debounce-timer callback installed by `scheduleSave` (save-manager.js
line 39): it invokes `performSave(false)` — with `skipSavePdf = false`. -/
def saveTimeoutCallback (resp : FetchResult) (st : St) : St × Bool :=
  performSave false resp st

/-- Events of the single-threaded save loop, used to examine overlapping
requests: a markup mutation (which calls `scheduleSave`), the debounce
timer firing (which calls `performSave(false)`, here split at the fetch
suspension point so that a second event can run before settlement), and the
settlement of the oldest in-flight request. -/
inductive SaveEvent where
  | mutate
  | timerFire
  | settle (resp : FetchResult)
deriving DecidableEq

/-- Small-step semantics of the save loop: each event runs synchronously to
its next suspension point, exactly as the browser event loop schedules the
corresponding JS callbacks. -/
def stepSave (st : St) (e : SaveEvent) : St :=
  match e with
  | SaveEvent.mutate => scheduleSave st
  | SaveEvent.timerFire =>
      if st.timerPending then (performSaveStart { st with timerPending := false }).1
      else st
  | SaveEvent.settle resp =>
      if 0 < st.inflight then (performSaveSettle false resp st).1 else st

/-- Run a sequence of save-loop events. -/
def runSaveEvents (es : List SaveEvent) (st : St) : St :=
  es.foldl stepSave st

/-- undo-manager.js `pushUndo()`: unless currently replaying history, push a
deep copy of the canonical markup list onto the undo stack and clear the
redo stack (deep copies are value copies in this embedding).  This is the
variant without an attached interactive canvas, which is also what the
fabric-aware variant degenerates to when no canvas is attached (in this
snapshot `initFabricForPage` has no caller). -/
def pushUndo (st : St) : St :=
  if st.isUndoRedo then st
  else { st with undoStack := st.undoStack ++ [st.markups], redoStack := [] }

/-- undo-manager.js `undo()`: if the undo stack is non-empty, push the
current list onto the redo stack, pop the last undo snapshot into
`state.markups` (the `isUndoRedo` flag is raised and lowered inside the
call, so it ends `false`), re-render, and `scheduleSave()`. -/
def undo (st : St) : St :=
  if st.undoStack.length = 0 then st
  else
    scheduleSave
      { st with
        isUndoRedo := false
        redoStack := st.redoStack ++ [st.markups]
        markups := st.undoStack.getLastD []
        undoStack := st.undoStack.dropLast }

/-- undo-manager.js `redo()`: symmetric to `undo`. -/
def redo (st : St) : St :=
  if st.redoStack.length = 0 then st
  else
    scheduleSave
      { st with
        isUndoRedo := false
        undoStack := st.undoStack ++ [st.markups]
        markups := st.redoStack.getLastD []
        redoStack := st.redoStack.dropLast }

/-- markup-tools.js `addMarkup(m)`: `pushUndo()`, append the markup to the
canonical list, `scheduleSave()`, re-render. -/
def addMarkup (m : Markup) (st : St) : St :=
  let st1 := pushUndo st
  scheduleSave { st1 with markups := st1.markups ++ [m] }

/-- markup-tools.js `deleteMarkup(markupId)`: `pushUndo()`, remove the
markup with that id, `scheduleSave()`, re-render. -/
def deleteMarkup (markupId : String) (st : St) : St :=
  let st1 := pushUndo st
  scheduleSave { st1 with markups := st1.markups.filter (fun x => x.id != markupId) }

/-- A create or delete operation on the markup list, as in spec §8.2. -/
inductive MarkupOp where
  | create (m : Markup)
  | delete (markupId : String)
deriving DecidableEq

/-- Apply one create/delete operation through markup-tools.js. -/
def applyOp (st : St) (op : MarkupOp) : St :=
  match op with
  | MarkupOp.create m => addMarkup m st
  | MarkupOp.delete i => deleteMarkup i st

/-- Apply a sequence of create/delete operations. -/
def applyOps (st : St) (ops : List MarkupOp) : St :=
  ops.foldl applyOp st

/-- context-selector.js `loadLinkedOptions()` (lines 35–59), state effects
only: store the fetched link scopes (`[]` on fetch failure), rebuild the
dropdown — whose option values are the document option (empty value) plus
`JSON.stringify` of each linked scope pair — and, when the current scope has
both fields non-null, look the pair up among the option values
(`JSON.stringify` is deterministic and injective on these pairs, so string
equality of values is pair equality); if it is absent, null both scope
fields.  No other state field is touched; in particular the undo and redo
stacks are left as they were. -/
def loadLinkedOptions (fetched : Option (List LinkedOption)) (st : St) : St :=
  let st1 := { st with linkedOptions := fetched.getD [] }
  match st1.currentLinkedType, st1.currentLinkedId with
  | some t, some i =>
      if st1.linkedOptions.any (fun o => o.linked_type == t && o.linked_id == i) then st1
      else { st1 with currentLinkedType := none, currentLinkedId := none }
  | _, _ => st1

/-- pdf-viewer.js `loadPdf` (lines 203–208): immediately after
`loadLinkedOptions` returns, if both scope fields are null and the fetched
valid set is non-empty, select the first valid scope
(`state.linkedOptions[0]`); `getD` models the guarded `[0]` access. -/
def autoSelectFirstOption (st : St) : St :=
  if st.currentLinkedType = none ∧ st.currentLinkedId = none ∧
      0 < st.linkedOptions.length then
    let firstOpt := st.linkedOptions.getD 0 ⟨"", 0⟩
    { st with currentLinkedType := some firstOpt.linked_type, currentLinkedId := some firstOpt.linked_id }
  else st

/-- The scope-resolution part of the load sequence in pdf-viewer.js
`loadPdf` (lines 202–208): `await loadLinkedOptions()` followed
synchronously by the first-valid-option auto-selection, both completing
before `loadMarkups()` runs and before any save can be attempted. -/
def loadPdfScopeResolution (fetched : Option (List LinkedOption)) (st : St) : St :=
  autoSelectFirstOption (loadLinkedOptions fetched st)

/-- Upper-case hexadecimal digit, as `URLSearchParams` percent-encoding
produces. -/
def hexDigit (n : ℕ) : Char :=
  if n < 10 then Char.ofNat (48 + n) else Char.ofNat (55 + n)

/-- Percent-encode one byte (`%XY`). -/
def percentEncodeByte (b : UInt8) : String :=
  String.mk ['%', hexDigit (b.toNat / 16), hexDigit (b.toNat % 16)]

/-- Characters `application/x-www-form-urlencoded` serialization leaves
unescaped. -/
def formUrlUnreserved (c : Char) : Bool :=
  c.isAlphanum || c == '*' || c == '-' || c == '.' || c == '_'

/-- The `application/x-www-form-urlencoded` serialization of one component,
as `URLSearchParams.toString()` applies to keys and values. -/
def formUrlEncode (s : String) : String :=
  String.join (s.toList.map (fun c =>
    if formUrlUnreserved c then String.singleton c
    else if c == ' ' then "+"
    else String.join ((String.singleton c).toUTF8.toList.map percentEncodeByte)))

/-- `URLSearchParams.toString()` over the accumulated key/value pairs. -/
def urlSearchParamsToString (params : List (String × String)) : String :=
  String.intercalate "&" (params.map (fun p => formUrlEncode p.1 ++ "=" ++ formUrlEncode p.2))

namespace ContextSelector

/-- context-selector.js `getMarkupsUrl()` (lines 8–14): build the params in
the order `linked_type`, `linked_id` (each only when non-null, the id
stringified), then `/api/documents/DOCID/markups` with `?query` only when
the serialized params are non-empty. -/
def getMarkupsUrl (docId : ℕ) (currentLinkedType : Option String)
    (currentLinkedId : Option Int) : String :=
  let params : List (String × String) :=
    (match currentLinkedType with
      | some v => [("linked_type", v)]
      | none => []) ++
    (match currentLinkedId with
      | some v => [("linked_id", toString v)]
      | none => [])
  let q := urlSearchParamsToString params
  "/api/documents/" ++ toString docId ++ "/markups" ++ (if q = "" then "" else "?" ++ q)

end ContextSelector

namespace SaveManager

/-- save-manager.js `getMarkupsUrl()` (lines 8–14), translated from its own
source text: identical construction to the context-selector copy. -/
def getMarkupsUrl (docId : ℕ) (currentLinkedType : Option String)
    (currentLinkedId : Option Int) : String :=
  let params : List (String × String) :=
    (match currentLinkedType with
      | some v => [("linked_type", v)]
      | none => []) ++
    (match currentLinkedId with
      | some v => [("linked_id", toString v)]
      | none => [])
  let q := urlSearchParamsToString params
  "/api/documents/" ++ toString docId ++ "/markups" ++ (if q = "" then "" else "?" ++ q)

end SaveManager

/-- The error message performSave records for a rejected request
(`errBody.detail || res.statusText` for an HTTP error, `e.message` for a
network failure). -/
def rejectionMessage (resp : FetchResult) : String :=
  match resp with
  | FetchResult.ok => ""
  | FetchResult.httpError detail => detail
  | FetchResult.networkError msg => msg

/-- The initial editor state of state.js (with a document-level scope;
`config.linkedType` / `config.linkedId` are `null` when the page is opened
without a context in the URL). -/
def initialSt : St :=
  { markups := [], linkedOptions := [], currentLinkedType := none,
    currentLinkedId := none, undoStack := [], redoStack := [],
    saveStatus := SaveStatus.idle, lastSaveError := "", dirty := false,
    isUndoRedo := false, timerPending := false, inflight := 0,
    putsStarted := 0, savePdfCalls := 0 }

/-- A concrete dirty state: one unsaved highlight, debounce timer pending. -/
def dirtySt : St :=
  { initialSt with
    markups := [{ baseMarkup with
      id := "m1"
      color := some "#ffeb3b"
      bounds := some ⟨0, 0, 1/10, 1/10⟩ }]
    undoStack := [[]]
    dirty := true
    timerPending := true }

/-- C10: for every session state — every combination of `currentLinkedType`
and `currentLinkedId`, each null or non-null — and every document id, the
two independently defined URL builders `contextSelector.getMarkupsUrl` and
`saveManager.getMarkupsUrl` return identical URL strings. -/
theorem getMarkupsUrl_equivalent (docId : ℕ) (currentLinkedType : Option String)
    (currentLinkedId : Option Int) :
    ContextSelector.getMarkupsUrl docId currentLinkedType currentLinkedId =
      SaveManager.getMarkupsUrl docId currentLinkedType currentLinkedId := rfl

/-- C1 counterexample: the debounced autosave timer callback (save-manager.js
line 39) invokes `performSave(false)`, i.e. with `skipSavePdf = false`, so a
successful autosave does trigger `performSavePdf` (the `POST /save-pdf`
document-flatten request): from a concrete dirty state, one successful
autosave leaves one `performSavePdf` invocation recorded — refuting the
claim that an autosave never triggers the flatten request. -/
theorem autosave_flatten_counterexample :
    (saveTimeoutCallback FetchResult.ok dirtySt).1.savePdfCalls = 1 ∧
      ¬ (saveTimeoutCallback FetchResult.ok dirtySt).1.savePdfCalls = 0 := by
  constructor
  · rfl
  · decide

/-- C1 amended: the debounced autosave path calls `performSave` with
`skipFlatten = false` — the opposite of the claimed polarity — so every
successful autosave from a dirty state triggers exactly one document-flatten
request (`performSavePdf` / `POST /save-pdf`); `skipFlatten = true` is
passed only by the explicit-save path (`handleSavePdfClick`). -/
theorem autosave_flatten_amended (st : St) (h : st.dirty = true) :
    saveTimeoutCallback FetchResult.ok st = performSave false FetchResult.ok st ∧
    (saveTimeoutCallback FetchResult.ok st).1.savePdfCalls = st.savePdfCalls + 1 := by
  refine ⟨rfl, ?_⟩
  unfold saveTimeoutCallback performSave performSaveStart performSaveSettle
  simp [h]

/-- Witness for C1's amended theorem at the concrete dirty state. -/
theorem autosave_flatten_amended_witness :
    dirtySt.dirty = true ∧
    (saveTimeoutCallback FetchResult.ok dirtySt = performSave false FetchResult.ok dirtySt ∧
      (saveTimeoutCallback FetchResult.ok dirtySt).1.savePdfCalls = dirtySt.savePdfCalls + 1) :=
  ⟨rfl, autosave_flatten_amended dirtySt rfl⟩

/-- C8: when the `PUT /markups` request of a started `performSave` is
rejected — non-ok HTTP response or network failure — the save manager
transitions to `error`, records the error message in `lastSaveError`,
leaves `dirty` unchanged (still `true`) and the canonical markup list
unchanged, and resolves `false`, so a later save attempt is required and no
edit is discarded. -/
theorem performSave_rejection (skipSavePdf : Bool) (resp : FetchResult) (st : St)
    (hdirty : st.dirty = true) (hresp : resp ≠ FetchResult.ok) :
    (performSave skipSavePdf resp st).1.saveStatus = SaveStatus.error ∧
    (performSave skipSavePdf resp st).1.lastSaveError = rejectionMessage resp ∧
    (performSave skipSavePdf resp st).1.dirty = true ∧
    (performSave skipSavePdf resp st).1.markups = st.markups ∧
    (performSave skipSavePdf resp st).2 = false := by
  unfold performSave performSaveStart
  cases resp with
  | ok => exact absurd rfl hresp
  | httpError detail => simp [hdirty, performSaveSettle, rejectionMessage]
  | networkError msg => simp [hdirty, performSaveSettle, rejectionMessage]

/-- Witness for C8 at a concrete rejected save (an HTTP 400 with the
server's context-validation message). -/
theorem performSave_rejection_witness :
    dirtySt.dirty = true ∧
    FetchResult.httpError "Invalid context" ≠ FetchResult.ok ∧
    ((performSave false (FetchResult.httpError "Invalid context") dirtySt).1.saveStatus
        = SaveStatus.error ∧
      (performSave false (FetchResult.httpError "Invalid context") dirtySt).1.lastSaveError
        = rejectionMessage (FetchResult.httpError "Invalid context") ∧
      (performSave false (FetchResult.httpError "Invalid context") dirtySt).1.dirty = true ∧
      (performSave false (FetchResult.httpError "Invalid context") dirtySt).1.markups
        = dirtySt.markups ∧
      (performSave false (FetchResult.httpError "Invalid context") dirtySt).2 = false) :=
  ⟨rfl, by decide,
    performSave_rejection false (FetchResult.httpError "Invalid context") dirtySt rfl
      (by decide)⟩

/-- C3 counterexample: on the event trace mutate → timer fires (first PUT
starts) → mutate while that PUT is in flight → the new debounce timer fires
before the first PUT settles, the second timer firing starts a second PUT
while the first is still unsettled: afterwards two `PUT /markups` requests
are in flight simultaneously, refuting that a mutation or timer firing
during the `saving` state is deferred until the in-flight request settles. -/
theorem save_overlap_counterexample :
    (runSaveEvents [SaveEvent.mutate, SaveEvent.timerFire, SaveEvent.mutate,
        SaveEvent.timerFire] initialSt).inflight = 2 ∧
    (runSaveEvents [SaveEvent.mutate, SaveEvent.timerFire, SaveEvent.mutate,
        SaveEvent.timerFire] initialSt).putsStarted = 2 ∧
    (runSaveEvents [SaveEvent.mutate, SaveEvent.timerFire, SaveEvent.mutate,
        SaveEvent.timerFire] initialSt).saveStatus = SaveStatus.saving := by
  refine ⟨rfl, rfl, rfl⟩

/-- C3 amended: the save state machine does not serialize overlapping
requests — `performSave`'s only gate is "not dirty and not in error"; the
`saving` status does not block a send.  Whenever the debounce timer fires
with a timer pending and the state dirty, a new `PUT /markups` is started
regardless of any in-flight request, so a mutation during `saving` whose
timer elapses before settlement produces a second concurrent send (what
remains true is only that the new send is a fresh debounce cycle: `dirty`
stays true until some send succeeds). -/
theorem save_no_serialization (st : St) (htimer : st.timerPending = true)
    (hdirty : st.dirty = true) :
    (stepSave st SaveEvent.timerFire).putsStarted = st.putsStarted + 1 ∧
    (stepSave st SaveEvent.timerFire).inflight = st.inflight + 1 ∧
    (stepSave st SaveEvent.timerFire).saveStatus = SaveStatus.saving := by
  unfold stepSave performSaveStart
  simp [htimer, hdirty]

/-- The state reached after mutate → timerFire → mutate: one PUT in flight,
dirty again, a fresh debounce timer pending. -/
def overlapSt : St :=
  runSaveEvents [SaveEvent.mutate, SaveEvent.timerFire, SaveEvent.mutate] initialSt

/-- Witness for C3's amended theorem: at `overlapSt` (one request already in
flight) the timer firing starts a second concurrent request. -/
theorem save_no_serialization_witness :
    overlapSt.timerPending = true ∧ overlapSt.dirty = true ∧
    ((stepSave overlapSt SaveEvent.timerFire).putsStarted = overlapSt.putsStarted + 1 ∧
      (stepSave overlapSt SaveEvent.timerFire).inflight = overlapSt.inflight + 1 ∧
      (stepSave overlapSt SaveEvent.timerFire).saveStatus = SaveStatus.saving) :=
  ⟨rfl, rfl, save_no_serialization overlapSt rfl rfl⟩

theorem undo_fields (st : St) (h : st.undoStack ≠ []) :
    (undo st).undoStack.length = st.undoStack.length - 1 ∧
    (undo st).dirty = true ∧ (undo st).timerPending = true ∧
    (undo st).isUndoRedo = false := by
  unfold undo scheduleSave
  rw [if_neg (by simpa [List.length_eq_zero] using h)]
  simp [List.length_dropLast]

theorem redo_undo (st : St) (h : st.undoStack ≠ [])
    (hd : st.dirty = true) (ht : st.timerPending = true)
    (hu : st.isUndoRedo = false) :
    redo (undo st) = st := by
  obtain ⟨us, a, hus⟩ := (List.eq_nil_or_concat st.undoStack).resolve_left h
  cases st with
  | mk markups linkedOptions clt cli undoStack redoStack ss lse dirty
      iur tp infl ps spc =>
    simp only at hus hd ht hu
    subst hus
    subst hd
    subst ht
    subst hu
    unfold undo redo scheduleSave
    simp [List.dropLast_concat, List.getLastD_concat]

theorem redo_undo_iterate (n : ℕ) : ∀ st : St, n ≤ st.undoStack.length →
    st.dirty = true → st.timerPending = true → st.isUndoRedo = false →
    redo^[n] (undo^[n] st) = st := by
  induction n with
  | zero => intro st _ _ _ _; simp
  | succ k ih =>
    intro st hlen hd ht hu
    have hne : st.undoStack ≠ [] := by
      intro hc
      rw [hc] at hlen
      simp at hlen
    have hf := undo_fields st hne
    rw [Function.iterate_succ_apply undo k st, Function.iterate_succ_apply' redo k]
    rw [ih (undo st) (by omega) hf.2.1 hf.2.2.1 hf.2.2.2]
    exact redo_undo st hne hd ht hu

theorem applyOp_fields (st : St) (op : MarkupOp) (h : st.isUndoRedo = false) :
    (applyOp st op).isUndoRedo = false ∧
    (applyOp st op).undoStack.length = st.undoStack.length + 1 ∧
    (applyOp st op).dirty = true ∧ (applyOp st op).timerPending = true := by
  cases op with
  | create m => unfold applyOp addMarkup pushUndo scheduleSave; simp [h]
  | delete i => unfold applyOp deleteMarkup pushUndo scheduleSave; simp [h]

theorem applyOps_fields (ops : List MarkupOp) : ∀ st : St, st.isUndoRedo = false →
    (applyOps st ops).isUndoRedo = false ∧
    (applyOps st ops).undoStack.length = st.undoStack.length + ops.length ∧
    (ops ≠ [] → (applyOps st ops).dirty = true ∧ (applyOps st ops).timerPending = true) := by
  induction ops with
  | nil => intro st h; simpa [applyOps] using h
  | cons op rest ih =>
    intro st h
    have h1 := applyOp_fields st op h
    have h2 := ih (applyOp st op) h1.1
    unfold applyOps at h2 ⊢
    simp only [List.foldl_cons]
    refine ⟨h2.1, by rw [h2.2.1, h1.2.1, List.length_cons]; omega, ?_⟩
    intro _
    by_cases hr : rest = []
    · subst hr
      simpa [List.foldl_nil] using ⟨h1.2.2.1, h1.2.2.2⟩
    · exact h2.2.2 hr

/-- C6: for every starting state that is not replaying history and every
sequence of create/delete operations (each of which pushes an undo snapshot
through `pushUndo` inside `addMarkup`/`deleteMarkup`), calling `undo()` N
times and then `redo()` N times restores exactly the markup sequence that
held after the original operations — full field-by-field equality of the
list, hence in particular id-set equality. -/
theorem undo_redo_roundtrip (st : St) (ops : List MarkupOp)
    (h : st.isUndoRedo = false) :
    (redo^[ops.length] (undo^[ops.length] (applyOps st ops))).markups =
      (applyOps st ops).markups := by
  by_cases hops : ops = []
  · subst hops
    simp
  · have hf := applyOps_fields ops st h
    have hd := (hf.2.2 hops).1
    have ht := (hf.2.2 hops).2
    rw [redo_undo_iterate ops.length (applyOps st ops) (by omega) hd ht hf.1]

/-- Concrete operation sequence for the C6 witness: create a comment, then
delete it again. -/
def c6ops : List MarkupOp :=
  [MarkupOp.create { baseMarkup with
      id := "c6"
      type := MarkupType.comment
      bounds := some ⟨1/2, 1/2, 3/100, 3/100⟩
      text := some "note" },
    MarkupOp.delete "c6"]

/-- Witness for C6 at the initial state with a concrete create/delete pair. -/
theorem undo_redo_roundtrip_witness :
    initialSt.isUndoRedo = false ∧
    (redo^[c6ops.length] (undo^[c6ops.length] (applyOps initialSt c6ops))).markups =
      (applyOps initialSt c6ops).markups :=
  ⟨rfl, undo_redo_roundtrip initialSt c6ops rfl⟩

/-- A session loaded with an initially-requested scope (project, 7) that is
not linked to the document, and a non-empty undo and redo history. -/
def staleScopeSt : St :=
  { initialSt with
    currentLinkedType := some "project"
    currentLinkedId := some 7
    undoStack := [[]]
    redoStack := [[]] }

/-- C4 counterexample: with an initially-requested scope (project, 7) and an
empty valid-scope set, `loadLinkedOptions` nulls both scope fields but
leaves the undo and redo stacks untouched — refuting the claim that loading
clears both history stacks on the scope reset. -/
theorem scope_reset_counterexample :
    (loadLinkedOptions (some []) staleScopeSt).currentLinkedType = none ∧
    (loadLinkedOptions (some []) staleScopeSt).currentLinkedId = none ∧
    (loadLinkedOptions (some []) staleScopeSt).undoStack ≠ [] ∧
    (loadLinkedOptions (some []) staleScopeSt).redoStack ≠ [] := by
  refine ⟨rfl, rfl, by decide, by decide⟩

/-- C4 amended: for every session whose initially-requested scope (both
fields non-null) is not among the valid scopes fetched at load,
`loadLinkedOptions` resets the session to document-level scope (nulls both
fields) while leaving the undo and redo stacks exactly as they were
(history is cleared only by the user-driven context-change handler); the
enclosing load sequence (`loadPdf`) then immediately auto-selects the first
valid scope whenever the valid set is non-empty, all before the first save
can be attempted — so the first subsequent `PUT /markups` carries
`linkedType = null, linkedId = null` exactly when the valid set is empty
(the spec's §8.5 scenario), and with a non-empty valid set it carries the
first valid scope instead. -/
theorem scope_reset_amended (fetched : Option (List LinkedOption)) (st : St)
    (t : String) (i : Int)
    (ht : st.currentLinkedType = some t) (hi : st.currentLinkedId = some i)
    (hnot : (fetched.getD []).any
      (fun o => o.linked_type == t && o.linked_id == i) = false) :
    (loadLinkedOptions fetched st).currentLinkedType = none ∧
    (loadLinkedOptions fetched st).currentLinkedId = none ∧
    (loadLinkedOptions fetched st).undoStack = st.undoStack ∧
    (loadLinkedOptions fetched st).redoStack = st.redoStack ∧
    (loadPdfScopeResolution fetched st).undoStack = st.undoStack ∧
    (loadPdfScopeResolution fetched st).redoStack = st.redoStack ∧
    (fetched.getD [] = [] →
      (putBody (loadPdfScopeResolution fetched st)).linked_type = none ∧
      (putBody (loadPdfScopeResolution fetched st)).linked_id = none) ∧
    (∀ (firstOpt : LinkedOption) (rest : List LinkedOption),
      fetched.getD [] = firstOpt :: rest →
      (putBody (loadPdfScopeResolution fetched st)).linked_type = some firstOpt.linked_type ∧
      (putBody (loadPdfScopeResolution fetched st)).linked_id = some firstOpt.linked_id) := by
  have hreset : loadLinkedOptions fetched st =
      { st with
        linkedOptions := fetched.getD []
        currentLinkedType := none
        currentLinkedId := none } := by
    unfold loadLinkedOptions
    simp [ht, hi, hnot]
  refine ⟨by rw [hreset], by rw [hreset], by rw [hreset], by rw [hreset],
    ?_, ?_, ?_, ?_⟩
  · unfold loadPdfScopeResolution
    rw [hreset]
    unfold autoSelectFirstOption
    split <;> rfl
  · unfold loadPdfScopeResolution
    rw [hreset]
    unfold autoSelectFirstOption
    split <;> rfl
  · intro hfl
    unfold loadPdfScopeResolution
    rw [hreset]
    unfold autoSelectFirstOption putBody
    simp [hfl]
  · intro firstOpt rest hfl
    unfold loadPdfScopeResolution
    rw [hreset]
    unfold autoSelectFirstOption putBody
    simp [hfl]

/-- Witness for C4's amended theorem at the concrete stale-scope session
with a non-empty valid set: the requested (project, 7) is absent, the reset
fires without clearing history, and the load sequence ends on the first
valid scope (task, 3). -/
theorem scope_reset_amended_witness :
    staleScopeSt.currentLinkedType = some "project" ∧
    staleScopeSt.currentLinkedId = some 7 ∧
    ((some [(⟨"task", 3⟩ : LinkedOption)]).getD []).any
      (fun o => o.linked_type == "project" && o.linked_id == 7) = false ∧
    ((loadLinkedOptions (some [⟨"task", 3⟩]) staleScopeSt).currentLinkedType = none ∧
      (loadLinkedOptions (some [⟨"task", 3⟩]) staleScopeSt).currentLinkedId = none ∧
      (loadLinkedOptions (some [⟨"task", 3⟩]) staleScopeSt).undoStack = staleScopeSt.undoStack ∧
      (loadLinkedOptions (some [⟨"task", 3⟩]) staleScopeSt).redoStack = staleScopeSt.redoStack ∧
      (loadPdfScopeResolution (some [⟨"task", 3⟩]) staleScopeSt).undoStack = staleScopeSt.undoStack ∧
      (loadPdfScopeResolution (some [⟨"task", 3⟩]) staleScopeSt).redoStack = staleScopeSt.redoStack ∧
      ((some [(⟨"task", 3⟩ : LinkedOption)]).getD [] = [] →
        (putBody (loadPdfScopeResolution (some [⟨"task", 3⟩]) staleScopeSt)).linked_type = none ∧
        (putBody (loadPdfScopeResolution (some [⟨"task", 3⟩]) staleScopeSt)).linked_id = none) ∧
      (∀ (firstOpt : LinkedOption) (rest : List LinkedOption),
        (some [(⟨"task", 3⟩ : LinkedOption)]).getD [] = firstOpt :: rest →
        (putBody (loadPdfScopeResolution (some [⟨"task", 3⟩]) staleScopeSt)).linked_type = some firstOpt.linked_type ∧
        (putBody (loadPdfScopeResolution (some [⟨"task", 3⟩]) staleScopeSt)).linked_id = some firstOpt.linked_id)) :=
  ⟨rfl, rfl, rfl,
    scope_reset_amended (some [⟨"task", 3⟩]) staleScopeSt "project" 7 rfl rfl rfl⟩

/-- pdf-viewer.js `PAGE_CACHE_SIZE`: capacity of concurrently rendered
pages. -/
def PAGE_CACHE_SIZE : ℕ := 15

/-- Per-page bookkeeping of pdf-viewer.js `pageInfos` restricted to the
fields the cache logic reads (`pageIndex`, `rendered`); the DOM surfaces
(`el`, `canvas`, `overlay`, `placeholderEl`) carry no decision-relevant
state. -/
structure PageInfo where
  pageIndex : ℕ
  rendered : Bool
deriving DecidableEq

/-- The page-virtualization state: the `pageInfos` array built by
`buildPageStructure` (entry `j` has `pageIndex = j`). -/
structure ViewerState where
  pageInfos : List PageInfo
deriving DecidableEq

/-- pdf-viewer.js `getRenderedPageIndices()`. -/
def getRenderedPageIndices (vs : ViewerState) : List ℕ :=
  (vs.pageInfos.filter (fun p => p.rendered)).map (fun p => p.pageIndex)

/-- JS `Math.min.apply(null, xs)`; the sentinel stands for `+Infinity`, the
result on an empty list (the viewer only calls this on non-empty lists). -/
def jsMathMin (l : List ℤ) : ℤ := l.foldl min 999999999

/-- JS `Math.max.apply(null, xs)`; the sentinel stands for `-Infinity`. -/
def jsMathMax (l : List ℤ) : ℤ := l.foldl max (-999999999)

/-- pdf-viewer.js `evictFurthestFromVisible(visibleSet)` (lines 50–66):
if fewer than `PAGE_CACHE_SIZE` pages are rendered, no victim; otherwise
scan the rendered indices, skip any that are in `visibleSet`, give each
other one the distance to the visible span (`9999` on the inapplicable
side), and return the first index attaining the strictly greatest
distance. -/
def evictFurthestFromVisible (vs : ViewerState) (visibleSet : List ℕ) : Option ℕ :=
  let rendered := getRenderedPageIndices vs
  if rendered.length < PAGE_CACHE_SIZE then none
  else
    let minVisible := jsMathMin (visibleSet.map (fun i => (i : ℤ)))
    let maxVisible := jsMathMax (visibleSet.map (fun i => (i : ℤ)))
    (rendered.foldl (fun (acc : ℤ × Option ℕ) idx =>
      if visibleSet.contains idx then acc
      else
        let dist := min
          (if (idx : ℤ) < minVisible then minVisible - (idx : ℤ) else 9999)
          (if maxVisible < (idx : ℤ) then (idx : ℤ) - maxVisible else 9999)
        if acc.1 < dist then (dist, some idx) else acc)
      (-1, none)).2

/-- pdf-viewer.js `evictPage(pageIndex)`: if that page exists and is
rendered, tear its surfaces down and mark it unrendered. -/
def evictPage (vs : ViewerState) (pageIndex : ℕ) : ViewerState :=
  { pageInfos := vs.pageInfos.map (fun p =>
      if p.pageIndex == pageIndex && p.rendered then { p with rendered := false }
      else p) }

/-- pdf-viewer.js `renderPage(pageIndex)` (lines 80–115), state effects on
the cache: skip missing or already-rendered pages; otherwise build
`visibleSet = getRenderedPageIndices().concat([pageIndex])`, evict the
page `evictFurthestFromVisible` selects (if any), then render the page and
mark it rendered. -/
def renderPage (vs : ViewerState) (pageIndex : ℕ) : ViewerState :=
  match vs.pageInfos.find? (fun p => p.pageIndex == pageIndex) with
  | none => vs
  | some info =>
    if info.rendered then vs
    else
      let visibleSet := getRenderedPageIndices vs ++ [pageIndex]
      let vs1 :=
        match evictFurthestFromVisible vs visibleSet with
        | some toEvict => evictPage vs toEvict
        | none => vs
      { pageInfos := vs1.pageInfos.map (fun p =>
          if p.pageIndex == pageIndex then { p with rendered := true } else p) }

/-- Number of pages currently in the rendered state. -/
def renderedCount (vs : ViewerState) : ℕ :=
  (vs.pageInfos.filter (fun p => p.rendered)).length

/-- The placeholder structure for an `n`-page document, as
`buildPageStructure` creates it. -/
def initViewer (n : ℕ) : ViewerState :=
  { pageInfos := (List.range n).map (fun j => { pageIndex := j, rendered := false }) }

/-- C2 (code bug): scrolling a 16-page document so that pages 0 through 15
become visible in order makes 16 `renderPage` calls and ends with all 16
pages rendered — exceeding the capacity of 15 — because `renderPage` passes
the already-rendered indices (plus the new page) as the `visibleSet`, so
`evictFurthestFromVisible` skips every rendered page and never selects a
victim: at the 16th call, with 15 pages rendered, it returns none and
nothing is evicted. -/
theorem page_cache_overflow :
    renderedCount ((List.range 16).foldl renderPage (initViewer 16)) = 16 ∧
    PAGE_CACHE_SIZE < renderedCount ((List.range 16).foldl renderPage (initViewer 16)) ∧
    evictFurthestFromVisible ((List.range 15).foldl renderPage (initViewer 16))
      (getRenderedPageIndices ((List.range 15).foldl renderPage (initViewer 16)) ++ [15])
      = none := by
  refine ⟨by decide, by decide, by decide⟩

/-- Placeholder for `markupTools.id()` (time + random entropy): the
round-trip inputs of the verified claims always carry a non-empty id, so
the fresh-id branch is never exercised; a fixed placeholder keeps the
embedding deterministic. -/
def freshId : String := "m_fresh"

/-- Hexadecimal digit value, both cases (the JS regex is
case-insensitive). -/
def hexDigitVal (c : Char) : Option ℕ :=
  if 48 ≤ c.toNat ∧ c.toNat ≤ 57 then some (c.toNat - 48)
  else if 97 ≤ c.toNat ∧ c.toNat ≤ 102 then some (c.toNat - 87)
  else if 65 ≤ c.toNat ∧ c.toNat ≤ 70 then some (c.toNat - 55)
  else none

/-- utils.js `parseColor(hex)`: accept `#rrggbb` / `#rgb` (hash optional,
case-insensitive), expand the short form, return channel fractions; any
other input yields the default `(1, 1, 0)` (yellow). -/
def parseColor (hex : String) : ℚ × ℚ × ℚ :=
  let s1 : List Char :=
    match hex.toList with
    | '#' :: rest => rest
    | l => l
  let expanded : Option (List ℕ) :=
    if s1.length = 6 then s1.mapM hexDigitVal
    else if s1.length = 3 then (s1.flatMap (fun c => [c, c])).mapM hexDigitVal
    else none
  match expanded with
  | some [d1, d2, d3, d4, d5, d6] =>
      (((16 * d1 + d2 : ℕ) : ℚ) / 255, ((16 * d3 + d4 : ℕ) : ℚ) / 255,
        ((16 * d5 + d6 : ℕ) : ℚ) / 255)
  | _ => (1, 1, 0)

/-- The `rgba(r,g,b,0.35)` fill string fabric-layer.js builds for a
highlight rectangle from the markup's color. -/
def rgbaFill (color : String) : String :=
  "rgba(" ++ (toString (jsRound ((parseColor color).1 * 255)) ++ ("," ++
    (toString (jsRound ((parseColor color).2.1 * 255)) ++ ("," ++
      (toString (jsRound ((parseColor color).2.2 * 255)) ++ ",0.35)")))))

/-- Model of JS `s.indexOf(p) === 0`: `p` is an initial segment of `s`. -/
def strStartsWith (s p : String) : Bool :=
  p.toList.isPrefixOf s.toList

/-- Model of the JS pattern `(x && x !== 'transparent') ? x : d` on a
possibly-absent string. -/
def fillOrDefault (o : Option String) (d : String) : String :=
  match o with
  | none => d
  | some v => if v = "" ∨ v = "transparent" then d else v

/-- Path commands fabric parses from the `M x y L x y …` path string the
editor builds for an ink stroke. -/
inductive PathCmd where
  | move (x y : ℚ)
  | line (x y : ℚ)
deriving DecidableEq

/-- The `data` payload fabric-layer.js attaches to every object it creates
(`\x7bid, page, markupType\x7d`, plus the original point list for ink and the
comment text for comments). -/
structure FabricData where
  id : String
  page : ℕ
  markupType : MarkupType
  points : Option (List Point)
  commentText : Option String
deriving DecidableEq

/-- A fabric.js object, restricted to the properties the editor sets or
reads.  fabric.js is an external dependency (spec §6 vector-library
contract); its semantics are modelled as: constructor options become object
properties (so an option never passed is `none` — in particular the comment
text lives only inside `data` and the top-level `commentText` is `none` for
every object the editor creates), a `fabric.Path` gets its position and
size computed from the bounding box of its path commands, a `fabric.Circle`
gets `width = height = 2 * radius`, and a `fabric.IText` keeps the
dimensions the editor sets on it. -/
structure FabricObject where
  left : ℚ
  top : ℚ
  width : ℚ
  height : ℚ
  scaleX : Option ℚ
  scaleY : Option ℚ
  fill : Option String
  stroke : Option String
  strokeWidth : Option ℚ
  text : Option String
  fontSize : Option ℚ
  radius : Option ℚ
  path : Option (List PathCmd)
  commentText : Option String
  data : Option FabricData
deriving DecidableEq

/-- A fabric object with no properties set. -/
def fabricBaseObject : FabricObject :=
  { left := 0, top := 0, width := 0, height := 0, scaleX := none,
    scaleY := none, fill := none, stroke := none, strokeWidth := none,
    text := none, fontSize := none, radius := none, path := none,
    commentText := none, data := none }

/-- Least element of a rational list with explicit start (used for the
fabric path bounding box). -/
def listMinQ (l : List ℚ) (d : ℚ) : ℚ := l.foldl min d

/-- Greatest element of a rational list with explicit start. -/
def listMaxQ (l : List ℚ) (d : ℚ) : ℚ := l.foldl max d

/-- Normalized bounding box of a point list — the position and size a
loaded ink path reports, divided back by the page size. -/
def pointsBBox (pts : List Point) : Bounds :=
  let xs := pts.map (fun q => q.1)
  let ys := pts.map (fun q => q.2)
  let minX := listMinQ xs (xs.headD 0)
  let minY := listMinQ ys (ys.headD 0)
  let maxX := listMaxQ xs (xs.headD 0)
  let maxY := listMaxQ ys (ys.headD 0)
  ⟨minX, minY, maxX - minX, maxY - minY⟩

/-- The command list fabric parses from the path string
`'M x0 y0 L x1 y1 …'` built from the scaled points (string serialization
followed by parsing is lossless here). -/
def pathFromPoints (pts : List Point) (w h : ℚ) : List PathCmd :=
  match pts with
  | [] => []
  | p0 :: rest =>
      PathCmd.move (p0.1 * w) (p0.2 * h) ::
        rest.map (fun p => PathCmd.line (p.1 * w) (p.2 * h))

/-- Width a `fabric.IText` computes from its text metrics when the editor
does not override it; library-internal, never reached under the verified
hypotheses (which force positive override dimensions). -/
def fabricTextWidth : ℚ := 0

/-- Height counterpart of `fabricTextWidth`. -/
def fabricTextHeight : ℚ := 0

/-- The radius fabric-layer.js gives a comment circle
(`Math.max(4, Math.min(width, height) * 0.5)` over the scaled bounds). -/
def commentRadius (width height : ℚ) : ℚ := max 4 (min width height * (1/2))

/-- fabric-layer.js `markupToFabricObject(m, w, h)` (lines 134–209): build
the backend object for one markup on a page of pixel size `w × h`; `none`
models the `return null` for an ink markup without at least two points. -/
def markupToFabricObject (m : Markup) (w h : ℚ) : Option FabricObject :=
  let b : Bounds := m.bounds.getD ⟨0, 0, 1/10, 1/10⟩
  let left := b.x * w
  let top := b.y * h
  let width := jsOrQ b.width (1/10) * w
  let height := jsOrQ b.height (1/10) * h
  let data : FabricData :=
    { id := jsOrStr m.id freshId, page := m.page, markupType := m.type,
      points := none, commentText := none }
  match m.type with
  | MarkupType.highlight =>
      let color := jsOrOptStr m.color "#ffeb3b"
      some { fabricBaseObject with
        left := left
        top := top
        width := width
        height := height
        fill := some (rgbaFill color)
        stroke := some color
        strokeWidth := some 1
        data := some data }
  | MarkupType.ink =>
      match m.points with
      | some pts =>
          if 2 ≤ pts.length then
            let bb := pointsBBox pts
            some { fabricBaseObject with
              left := bb.x * w
              top := bb.y * h
              width := bb.width * w
              height := bb.height * h
              stroke := some (jsOrOptStr m.color "#000000")
              strokeWidth := some (jsOrOptQ m.strokeWidth 2)
              path := some (pathFromPoints pts w h)
              data := some { data with points := some pts } }
          else none
      | none => none
  | MarkupType.text =>
      let text := jsOrOptStr m.text ""
      let fontSize := jsOrOptQ m.fontSize 12
      let color := jsOrOptStr m.color "#000000"
      let overrideWH : ℚ × ℚ :=
        if 0 < width ∧ 0 < height then (width, height)
        else (fabricTextWidth, fabricTextHeight)
      some { fabricBaseObject with
        left := left
        top := top
        width := overrideWH.1
        height := overrideWH.2
        fontSize := some fontSize
        fill := some color
        text := some (jsOrStr text "Text")
        data := some data }
  | MarkupType.comment =>
      let commentText := jsOrOptStr m.text ""
      let r := commentRadius width height
      some { fabricBaseObject with
        left := left
        top := top
        radius := some r
        width := 2 * r
        height := 2 * r
        fill := some "#8b5cf6"
        data := some { data with commentText := some commentText } }

/-- fabric-layer.js `objectToMarkup(obj, pageIndex, w, h)` (lines 32–105):
reconstruct a normalized markup from a backend object. -/
def objectToMarkup (obj : FabricObject) (pageIndex : ℕ) (w h : ℚ) : Option Markup :=
  let dataOpt := obj.data
  let id : String :=
    match dataOpt with
    | some d => jsOrStr d.id freshId
    | none => freshId
  let type : MarkupType :=
    match dataOpt with
    | some d => d.markupType
    | none => MarkupType.highlight
  let left := obj.left
  let top := obj.top
  let width := jsOrQ (obj.width * jsOrOptQ obj.scaleX 1) (1/100)
  let height := jsOrQ (obj.height * jsOrOptQ obj.scaleY 1) (1/100)
  let nx := left / w
  let ny := top / h
  let nw := width / w
  let nh := height / h
  let bounds : Bounds := ⟨nx, ny, nw, nh⟩
  match type with
  | MarkupType.highlight =>
      let fill := fillOrDefault obj.fill "#ffeb3b"
      let hex := if strStartsWith fill "rgba" then "#ffeb3b" else fill
      some { baseMarkup with
        id := id
        page := pageIndex
        type := MarkupType.highlight
        bounds := some bounds
        color := some hex }
  | MarkupType.ink =>
      let ptsFromPath : List Point :=
        (obj.path.getD []).filterMap (fun cmd =>
          match cmd with
          | PathCmd.move x y => some (x / w, y / h)
          | PathCmd.line x y => some (x / w, y / h))
      let pts1 : List Point :=
        if ptsFromPath.length < 2 then
          match dataOpt with
          | some d =>
              match d.points with
              | some dp => if 2 ≤ dp.length then dp else ptsFromPath
              | none => ptsFromPath
          | none => ptsFromPath
        else ptsFromPath
      let pts2 : List Point :=
        if pts1.length < 2 then [(nx, ny), (nx + nw, ny + nh)] else pts1
      some { baseMarkup with
        id := id
        page := pageIndex
        type := MarkupType.ink
        bounds := some bounds
        points := some pts2
        color := some (fillOrDefault obj.stroke "#000000")
        strokeWidth := some (jsOrOptQ obj.strokeWidth 2) }
  | MarkupType.text =>
      some { baseMarkup with
        id := id
        page := pageIndex
        type := MarkupType.text
        bounds := some bounds
        text := some (jsOrOptStr obj.text "")
        fontSize := some (jsOrOptQ obj.fontSize 12)
        color := some (fillOrDefault obj.fill "#000000") }
  | MarkupType.comment =>
      some { baseMarkup with
        id := id
        page := pageIndex
        type := MarkupType.comment
        bounds := some bounds
        text := some (jsOrOptStr obj.commentText "") }

/-- fabric-layer.js `loadMarkupsForPage` restricted to one canvas: the
object list rebuilt for `pageIndex` (markups of other pages filtered out,
null objects skipped). -/
def loadPageObjects (markups : List Markup) (pageIndex : ℕ) (w h : ℚ) :
    List FabricObject :=
  (markups.filter (fun m => m.page == pageIndex)).filterMap
    (fun m => markupToFabricObject m w h)

/-- fabric-layer.js `serializePageToMarkups` on a canvas holding the given
objects. -/
def serializeObjects (objects : List FabricObject) (pageIndex : ℕ) (w h : ℚ) :
    List Markup :=
  objects.filterMap (fun o => objectToMarkup o pageIndex w h)

/-- Round trip of the Interactive Canvas Backend for one page:
`renderFromModel` (`loadMarkupsForPage`) followed by `serializeToModel`
(`serializePageToMarkups`). -/
def fabricRoundTripPage (markups : List Markup) (pageIndex : ℕ) (w h : ℚ) :
    List Markup :=
  serializeObjects (loadPageObjects markups pageIndex w h) pageIndex w h

/-- The Overlay Backend's `renderFromModel`: annotation-layer.js
`renderMarkups()` draws from `state.markups` without modifying it, so
loading a list into this backend is the plain state assignment performed by
`loadMarkups`. -/
def overlayLoad (markups : List Markup) (st : St) : St :=
  { st with markups := markups }

/-- The Overlay Backend's `serializeToModel`: the backend keeps no object
state — the canonical list is already current (undo-manager.js reads
`state.markups` directly when no fabric layer is active), so serialization
is the canonical list itself. -/
def overlaySerializeToModel (st : St) : List Markup := st.markups

/-- One entry of the fabric layer's module-level `fabricCanvases` map
(fabric-layer.js line 12): a canvas attached to a page, with its pixel
dimensions and its object list. -/
structure FabricCanvas where
  pageIndex : ℕ
  width : ℚ
  height : ℚ
  objects : List FabricObject
deriving DecidableEq

/-- The session state together with the attached canvases, for the
fabric-aware variant of the undo manager (part_002; canvases are kept in
ascending page order, matching `Object.keys` enumeration of the numeric
keys). -/
structure FabricSt where
  st : St
  canvases : List FabricCanvas
deriving DecidableEq

/-- fabric-layer.js `serializePageToMarkups(pageIndex)`: `none` when no
canvas is attached to the page. -/
def serializePageToMarkups (fs : FabricSt) (pageIndex : ℕ) : Option (List Markup) :=
  match fs.canvases.find? (fun c => c.pageIndex == pageIndex) with
  | none => none
  | some c => some (serializeObjects c.objects pageIndex c.width c.height)

/-- fabric-layer.js `serializeAllFabricToMarkups()`: markups of pages
without a canvas, followed by each canvas's serialization. -/
def serializeAllFabricToMarkups (fs : FabricSt) : List Markup :=
  let pageIndices := fs.canvases.map (fun c => c.pageIndex)
  (fs.st.markups.filter (fun m => !(pageIndices.contains m.page))) ++
    (fs.canvases.map (fun c => serializeObjects c.objects c.pageIndex c.width c.height)).flatten

/-- fabric-layer.js `syncPageToState(pageIndex)` (lines 25–30): replace the
page's markups in the canonical list with the canvas serialization and
`scheduleSave()`; no-op when the page has no canvas. -/
def syncPageToState (pageIndex : ℕ) (fs : FabricSt) : FabricSt :=
  match serializePageToMarkups fs pageIndex with
  | none => fs
  | some pageMarkups =>
      let newSt : St := { fs.st with markups :=
        (fs.st.markups.filter (fun m => !(m.page == pageIndex))) ++ pageMarkups }
      { fs with st := scheduleSave newSt }

/-- The `object:added` / `object:modified` / `object:removed` handlers
installed by `initFabricForPage` (fabric-layer.js lines 287–298): skip when
`state.isUndoRedo` is set, otherwise `syncPageToState`. -/
def onObjectChanged (pageIndex : ℕ) (fs : FabricSt) : FabricSt :=
  if fs.st.isUndoRedo then fs else syncPageToState pageIndex fs

/-- `canvas.add(obj)` on the page's canvas: append the object, then the
`object:added` handler fires synchronously. -/
def canvasAddObject (pageIndex : ℕ) (obj : FabricObject) (fs : FabricSt) : FabricSt :=
  let fs1 : FabricSt := { fs with canvases := fs.canvases.map (fun c =>
      if c.pageIndex == pageIndex then { c with objects := c.objects ++ [obj] } else c) }
  onObjectChanged pageIndex fs1

/-- Removal of the first remaining object of the page's canvas, with its
`object:removed` handler firing synchronously. -/
def canvasRemoveFirst (pageIndex : ℕ) (fs : FabricSt) : FabricSt :=
  let fs1 : FabricSt := { fs with canvases := fs.canvases.map (fun c =>
      if c.pageIndex == pageIndex then { c with objects := c.objects.tail } else c) }
  onObjectChanged pageIndex fs1

/-- `canvas.remove.apply(canvas, canvas.getObjects())`: remove every object
in order, one `object:removed` callback per object. -/
def canvasRemoveAll (pageIndex : ℕ) (fs : FabricSt) : FabricSt :=
  let n : ℕ :=
    match fs.canvases.find? (fun c => c.pageIndex == pageIndex) with
    | none => 0
    | some c => c.objects.length
  (List.range n).foldl (fun acc _ => canvasRemoveFirst pageIndex acc) fs

/-- fabric-layer.js `loadMarkupsIntoFabric(markups)` (lines 211–232):
install the list as the canonical sequence, then for every attached canvas
remove all its objects and re-add the page's markups — each removal and
addition firing its object callback with whatever `state.isUndoRedo`
currently is. -/
def loadMarkupsIntoFabric (markups : List Markup) (fs : FabricSt) : FabricSt :=
  let fs1 : FabricSt := { fs with st := { fs.st with markups := markups } }
  fs1.canvases.foldl (fun acc c =>
    let acc1 := canvasRemoveAll c.pageIndex acc
    (markups.filter (fun m => m.page == c.pageIndex)).foldl (fun acc2 m =>
      match markupToFabricObject m c.width c.height with
      | some obj => canvasAddObject c.pageIndex obj acc2
      | none => acc2) acc1) fs1

/-- part_002 (the fabric-aware undo-manager.js) `undo()`: raise
`isUndoRedo`, capture the current full serialization, push it on the redo
stack, pop the undo snapshot into `state.markups`, lower `isUndoRedo` —
and only then propagate the snapshot into the backend with
`loadMarkupsIntoFabric`, followed by `scheduleSave()`. -/
def undoFabric (fs : FabricSt) : FabricSt :=
  if fs.st.undoStack.length = 0 then fs
  else
    let current := serializeAllFabricToMarkups fs
    let snapshot := fs.st.undoStack.getLastD []
    let fs1 : FabricSt := { fs with st := { fs.st with
        isUndoRedo := false
        redoStack := fs.st.redoStack ++ [current]
        markups := snapshot
        undoStack := fs.st.undoStack.dropLast } }
    let fs2 := loadMarkupsIntoFabric snapshot fs1
    { fs2 with st := scheduleSave fs2.st }

theorem strStartsWith_rgba (x : String) : strStartsWith ("rgba(" ++ x) "rgba" = true := rfl

theorem rgba_ne_empty (x : String) : "rgba(" ++ x ≠ "" := by
  intro hc
  have h2 := congrArg String.length hc
  rw [String.length_append] at h2
  have h3 : ("rgba(" : String).length = 5 := rfl
  have h4 : ("" : String).length = 0 := rfl
  rw [h3, h4] at h2
  omega

theorem rgba_ne_transparent (x : String) : "rgba(" ++ x ≠ "transparent" := by
  intro hc
  have h2 := congrArg String.toList hc
  have h5 : ("rgba(" ++ x).toList = ("rgba(" : String).toList ++ x.toList := rfl
  rw [h5] at h2
  have h3 : ("rgba(" : String).toList = ['r', 'g', 'b', 'a', '('] := rfl
  have h4 : ("transparent" : String).toList =
      ['t', 'r', 'a', 'n', 's', 'p', 'a', 'r', 'e', 'n', 't'] := rfl
  rw [h3, h4] at h2
  simp at h2

theorem rgbaFill_startsWith (c : String) : strStartsWith (rgbaFill c) "rgba" = true := by
  unfold rgbaFill
  exact strStartsWith_rgba _

theorem rgbaFill_ne_empty (c : String) : rgbaFill c ≠ "" := by
  unfold rgbaFill
  exact rgba_ne_empty _

theorem rgbaFill_ne_transparent (c : String) : rgbaFill c ≠ "transparent" := by
  unfold rgbaFill
  exact rgba_ne_transparent _

theorem fillOrDefault_of_ne (v d : String) (h1 : v ≠ "") (h2 : v ≠ "transparent") :
    fillOrDefault (some v) d = v := by
  simp [fillOrDefault, h1, h2]

theorem fillOrDefault_rgbaFill (c d : String) :
    fillOrDefault (some (rgbaFill c)) d = rgbaFill c :=
  fillOrDefault_of_ne (rgbaFill c) d (rgbaFill_ne_empty c) (rgbaFill_ne_transparent c)

@[simp] theorem jsOrOptStr_some_empty (v : String) : jsOrOptStr (some v) "" = v := by
  by_cases h : v = "" <;> simp [jsOrOptStr, h]

theorem map_unscale (l : List Point) (w h : ℚ) (hw : w ≠ 0) (hh : h ≠ 0) :
    l.map (fun p : Point => ((p.1 * w) / w, (p.2 * h) / h)) = l := by
  induction l with
  | nil => rfl
  | cons p rest ih =>
    simp only [List.map_cons, ih]
    rw [mul_div_cancel_right₀ _ hw, mul_div_cancel_right₀ _ hh]

theorem filterMap_line_unscale (rest : List Point) (w h : ℚ) (hw : w ≠ 0) (hh : h ≠ 0) :
    ((rest.map (fun q : Point => PathCmd.line (q.1 * w) (q.2 * h))).filterMap
      (fun cmd => match cmd with
        | PathCmd.move x y => some ((x / w, y / h) : Point)
        | PathCmd.line x y => some (x / w, y / h))) = rest := by
  induction rest with
  | nil => rfl
  | cons q tl ih =>
    simp only [List.map_cons, List.filterMap_cons, ih]
    rw [mul_div_cancel_right₀ _ hw, mul_div_cancel_right₀ _ hh]

theorem pathPoints_roundtrip (pts : List Point) (w h : ℚ) (hw : w ≠ 0) (hh : h ≠ 0) :
    ((pathFromPoints pts w h).filterMap (fun cmd =>
      match cmd with
      | PathCmd.move x y => some ((x / w, y / h) : Point)
      | PathCmd.line x y => some (x / w, y / h))) = pts := by
  cases pts with
  | nil => rfl
  | cons p rest =>
    simp only [pathFromPoints, List.filterMap_cons]
    rw [filterMap_line_unscale rest w h hw hh]
    rw [mul_div_cancel_right₀ _ hw, mul_div_cancel_right₀ _ hh]

theorem commentRadius_pos (a b : ℚ) : 0 < commentRadius a b :=
  lt_of_lt_of_le (by norm_num) (le_max_left 4 _)

theorem bounds_eta (b : Bounds) :
    ({ x := b.x, y := b.y, width := b.width, height := b.height } : Bounds) = b := rfl

theorem roundtrip_highlight (w h : ℚ) (hw : w ≠ 0) (hh : h ≠ 0) (p : ℕ)
    (i c : String) (hi : i ≠ "") (b : Bounds)
    (hbw : b.width ≠ 0) (hbh : b.height ≠ 0) :
    (markupToFabricObject { baseMarkup with
        id := i
        page := p
        type := MarkupType.highlight
        bounds := some b
        color := some c } w h).bind
      (fun o => objectToMarkup o p w h) =
    some { baseMarkup with
      id := i
      page := p
      type := MarkupType.highlight
      bounds := some b
      color := some "#ffeb3b" } := by
  have hww : b.width * w ≠ 0 := mul_ne_zero hbw hw
  have hhh : b.height * h ≠ 0 := mul_ne_zero hbh hh
  simp only [markupToFabricObject, objectToMarkup, baseMarkup, fabricBaseObject,
    Option.some_bind]
  simp [jsOrStr, hi, hbw, hbh, hww, hhh, fillOrDefault_rgbaFill,
    rgbaFill_startsWith, mul_div_cancel_right₀, hw, hh, bounds_eta]

theorem roundtrip_ink (w h : ℚ) (hw : w ≠ 0) (hh : h ≠ 0) (p : ℕ)
    (i c : String) (hi : i ≠ "") (hc1 : c ≠ "") (hc2 : c ≠ "transparent")
    (b : Bounds) (pts : List Point) (hpts : 2 ≤ pts.length)
    (sw : ℚ) (hsw : sw ≠ 0)
    (hbbw : (pointsBBox pts).width ≠ 0) (hbbh : (pointsBBox pts).height ≠ 0) :
    (markupToFabricObject { baseMarkup with
        id := i
        page := p
        type := MarkupType.ink
        bounds := some b
        points := some pts
        color := some c
        strokeWidth := some sw } w h).bind
      (fun o => objectToMarkup o p w h) =
    some { baseMarkup with
      id := i
      page := p
      type := MarkupType.ink
      bounds := some (pointsBBox pts)
      points := some pts
      color := some c
      strokeWidth := some sw } := by
  have hww : (pointsBBox pts).width * w ≠ 0 := mul_ne_zero hbbw hw
  have hhh : (pointsBBox pts).height * h ≠ 0 := mul_ne_zero hbbh hh
  have hlt : ¬ pts.length < 2 := by omega
  simp only [markupToFabricObject, objectToMarkup, baseMarkup, fabricBaseObject,
    Option.some_bind]
  simp [jsOrStr, hi, hpts, hww, hhh, hsw, pathPoints_roundtrip pts w h hw hh, hlt,
    hc1, hc2, fillOrDefault_of_ne c _ hc1 hc2, mul_div_cancel_right₀, hw, hh,
    bounds_eta]

theorem roundtrip_text (w h : ℚ) (hw : 0 < w) (hh : 0 < h) (p : ℕ)
    (i c s : String) (hi : i ≠ "") (hs : s ≠ "")
    (hc1 : c ≠ "") (hc2 : c ≠ "transparent")
    (b : Bounds) (hbw : 0 < b.width) (hbh : 0 < b.height)
    (fsz : ℚ) (hfsz : fsz ≠ 0) :
    (markupToFabricObject { baseMarkup with
        id := i
        page := p
        type := MarkupType.text
        bounds := some b
        text := some s
        fontSize := some fsz
        color := some c } w h).bind
      (fun o => objectToMarkup o p w h) =
    some { baseMarkup with
      id := i
      page := p
      type := MarkupType.text
      bounds := some b
      text := some s
      fontSize := some fsz
      color := some c } := by
  have hw0 : w ≠ 0 := ne_of_gt hw
  have hh0 : h ≠ 0 := ne_of_gt hh
  have hbw0 : b.width ≠ 0 := ne_of_gt hbw
  have hbh0 : b.height ≠ 0 := ne_of_gt hbh
  have hww : b.width * w ≠ 0 := mul_ne_zero hbw0 hw0
  have hhh : b.height * h ≠ 0 := mul_ne_zero hbh0 hh0
  have hpos : 0 < b.width * w ∧ 0 < b.height * h := ⟨mul_pos hbw hw, mul_pos hbh hh⟩
  simp only [markupToFabricObject, objectToMarkup, baseMarkup, fabricBaseObject,
    Option.some_bind]
  simp [jsOrStr, hi, hs, hbw0, hbh0, hww, hhh, hfsz, hpos.1, hpos.2,
    hc1, hc2, fillOrDefault_of_ne c _ hc1 hc2, mul_div_cancel_right₀, hw0, hh0,
    bounds_eta]

theorem roundtrip_comment (w h : ℚ) (hw : w ≠ 0) (hh : h ≠ 0) (p : ℕ)
    (i s : String) (hi : i ≠ "") (b : Bounds)
    (hbw : b.width ≠ 0) (hbh : b.height ≠ 0) :
    (markupToFabricObject { baseMarkup with
        id := i
        page := p
        type := MarkupType.comment
        bounds := some b
        text := some s } w h).bind
      (fun o => objectToMarkup o p w h) =
    some { baseMarkup with
      id := i
      page := p
      type := MarkupType.comment
      bounds := some ⟨b.x, b.y,
        2 * commentRadius (b.width * w) (b.height * h) / w,
        2 * commentRadius (b.width * w) (b.height * h) / h⟩
      text := some "" } := by
  have hr : (2 : ℚ) * commentRadius (b.width * w) (b.height * h) ≠ 0 := by
    have := commentRadius_pos (b.width * w) (b.height * h)
    positivity
  simp only [markupToFabricObject, objectToMarkup, baseMarkup, fabricBaseObject,
    Option.some_bind]
  simp [jsOrStr, hi, hbw, hbh, hr, mul_div_cancel_right₀, hw, hh, bounds_eta]

/-- C5 amended: the Overlay Backend round-trips every markup list exactly
(its serializeToModel is the canonical list itself).  The Interactive
Canvas (fabric) Backend, on a list of one markup of each variant with
in-range positive geometry and non-empty id/text/color fields, preserves
id, page and type for all four variants, bounds exactly for highlight and
text, and the ink points, ink color, strokeWidth, text content, fontSize
and text color exactly; but (i) a highlight's color always round-trips to
the default "#ffeb3b" — serialization reads the rect's rgba fill string and
maps every rgba fill to the default; (ii) a comment's text round-trips to
the empty string — it is stored only in the object's data payload, which
serialization does not consult for the text; (iii) an ink's bounds are
recomputed as the bounding box of its points; (iv) a comment's bounds
become the circle's bounding square, of side twice the comment radius. -/
theorem backend_roundtrip_amended (w h : ℚ) (hw : 0 < w) (hh : 0 < h) (p : ℕ)
    (hlId hlCol : String) (hlIdNe : hlId ≠ "") (hlB : Bounds)
    (hlBw : hlB.width ≠ 0) (hlBh : hlB.height ≠ 0)
    (inkId inkCol : String) (inkIdNe : inkId ≠ "") (inkColNe : inkCol ≠ "")
    (inkColNt : inkCol ≠ "transparent") (inkB : Bounds) (inkPts : List Point)
    (hinkPts : 2 ≤ inkPts.length) (inkSw : ℚ) (hinkSw : inkSw ≠ 0)
    (hinkW : (pointsBBox inkPts).width ≠ 0) (hinkH : (pointsBBox inkPts).height ≠ 0)
    (txtId txtCol txtS : String) (htxtId : txtId ≠ "") (htxtS : txtS ≠ "")
    (htxtCol : txtCol ≠ "") (htxtColT : txtCol ≠ "transparent")
    (txtB : Bounds) (htxtBw : 0 < txtB.width) (htxtBh : 0 < txtB.height)
    (txtFs : ℚ) (htxtFs : txtFs ≠ 0)
    (cmtId cmtTxt : String) (hcmtId : cmtId ≠ "") (cmtB : Bounds)
    (hcmtBw : cmtB.width ≠ 0) (hcmtBh : cmtB.height ≠ 0) :
    fabricRoundTripPage
      [{ baseMarkup with id := hlId, page := p, type := MarkupType.highlight, bounds := some hlB, color := some hlCol },
        { baseMarkup with id := inkId, page := p, type := MarkupType.ink, bounds := some inkB, points := some inkPts, color := some inkCol, strokeWidth := some inkSw },
        { baseMarkup with id := txtId, page := p, type := MarkupType.text, bounds := some txtB, text := some txtS, fontSize := some txtFs, color := some txtCol },
        { baseMarkup with id := cmtId, page := p, type := MarkupType.comment, bounds := some cmtB, text := some cmtTxt }] p w h
    =
      [{ baseMarkup with id := hlId, page := p, type := MarkupType.highlight, bounds := some hlB, color := some "#ffeb3b" },
        { baseMarkup with id := inkId, page := p, type := MarkupType.ink, bounds := some (pointsBBox inkPts), points := some inkPts, color := some inkCol, strokeWidth := some inkSw },
        { baseMarkup with id := txtId, page := p, type := MarkupType.text, bounds := some txtB, text := some txtS, fontSize := some txtFs, color := some txtCol },
        { baseMarkup with id := cmtId, page := p, type := MarkupType.comment, bounds := some ⟨cmtB.x, cmtB.y, 2 * commentRadius (cmtB.width * w) (cmtB.height * h) / w, 2 * commentRadius (cmtB.width * w) (cmtB.height * h) / h⟩, text := some "" }] ∧
    (∀ (markups : List Markup) (st : St),
      overlaySerializeToModel (overlayLoad markups st) = markups) := by
  constructor
  · have e1 := roundtrip_highlight w h (ne_of_gt hw) (ne_of_gt hh) p hlId hlCol
      hlIdNe hlB hlBw hlBh
    have e2 := roundtrip_ink w h (ne_of_gt hw) (ne_of_gt hh) p inkId inkCol
      inkIdNe inkColNe inkColNt inkB inkPts hinkPts inkSw hinkSw hinkW hinkH
    have e3 := roundtrip_text w h hw hh p txtId txtCol txtS htxtId htxtS
      htxtCol htxtColT txtB htxtBw htxtBh txtFs htxtFs
    have e4 := roundtrip_comment w h (ne_of_gt hw) (ne_of_gt hh) p cmtId cmtTxt
      hcmtId cmtB hcmtBw hcmtBh
    unfold fabricRoundTripPage loadPageObjects serializeObjects
    rw [List.filterMap_filterMap]
    simp only [List.filter_cons, List.filter_nil, beq_self_eq_true, if_pos]
    simp only [List.filterMap_cons, List.filterMap_nil, e1, e2, e3, e4]
  · intro markups st
    rfl

/-- Concrete highlight for the C5 instances: red, so the color loss is
visible. -/
def c5hl : Markup :=
  { baseMarkup with
    id := "h1"
    page := 0
    type := MarkupType.highlight
    bounds := some ⟨1/10, 1/10, 1/5, 1/10⟩
    color := some "#ff0000" }

/-- Concrete two-point ink stroke for the C5 instances. -/
def c5ink : Markup :=
  { baseMarkup with
    id := "i1"
    page := 0
    type := MarkupType.ink
    bounds := some ⟨0, 0, 1/2, 1/2⟩
    points := some [(1/10, 1/10), (2/5, 3/10)]
    color := some "#112233"
    strokeWidth := some 2 }

/-- Concrete text label for the C5 instances. -/
def c5txt : Markup :=
  { baseMarkup with
    id := "t1"
    page := 0
    type := MarkupType.text
    bounds := some ⟨1/2, 1/2, 1/5, 1/20⟩
    text := some "hello"
    fontSize := some 12
    color := some "#000000" }

/-- Concrete comment marker for the C5 instances. -/
def c5cmt : Markup :=
  { baseMarkup with
    id := "c1"
    page := 0
    type := MarkupType.comment
    bounds := some ⟨1/4, 1/4, 3/100, 3/100⟩
    text := some "a note" }

/-- The four-variant list of the C5 instances (all on page 0). -/
def c5list : List Markup := [c5hl, c5ink, c5txt, c5cmt]

/-- C5 counterexample: on a concrete list of one markup of each variant
with in-range geometry, the fabric backend's renderFromModel followed by
serializeToModel does not reproduce the list even up to geometric epsilon:
the red highlight comes back with the default color "#ffeb3b" and the
comment comes back with empty text — refuting exact preservation of the
non-geometric fields. -/
theorem backend_roundtrip_counterexample :
    fabricRoundTripPage c5list 0 100 100 ≠ c5list ∧
    (fabricRoundTripPage c5list 0 100 100).map (fun m => m.color) =
      [some "#ffeb3b", some "#112233", some "#000000", none] ∧
    c5hl.color = some "#ff0000" ∧
    (fabricRoundTripPage c5list 0 100 100).map (fun m => m.text) =
      [none, none, some "hello", some ""] ∧
    c5cmt.text = some "a note" := by
  have e1 := roundtrip_highlight 100 100 (by norm_num) (by norm_num) 0
    "h1" "#ff0000" (by decide) ⟨1/10, 1/10, 1/5, 1/10⟩ (by norm_num) (by norm_num)
  have e2 := roundtrip_ink 100 100 (by norm_num) (by norm_num) 0
    "i1" "#112233" (by decide) (by decide) (by decide)
    ⟨0, 0, 1/2, 1/2⟩ [(1/10, 1/10), (2/5, 3/10)] (by decide) 2 (by norm_num)
    (by norm_num [pointsBBox, listMinQ, listMaxQ])
    (by norm_num [pointsBBox, listMinQ, listMaxQ])
  have e3 := roundtrip_text 100 100 (by norm_num) (by norm_num) 0
    "t1" "#000000" "hello" (by decide) (by decide) (by decide) (by decide)
    ⟨1/2, 1/2, 1/5, 1/20⟩ (by norm_num) (by norm_num) 12 (by norm_num)
  have e4 := roundtrip_comment 100 100 (by norm_num) (by norm_num) 0
    "c1" "a note" (by decide) ⟨1/4, 1/4, 3/100, 3/100⟩ (by norm_num) (by norm_num)
  have hstep : fabricRoundTripPage c5list 0 100 100 =
      [{ baseMarkup with id := "h1", page := 0, type := MarkupType.highlight, bounds := some ⟨1/10, 1/10, 1/5, 1/10⟩, color := some "#ffeb3b" },
        { baseMarkup with id := "i1", page := 0, type := MarkupType.ink, bounds := some (pointsBBox [(1/10, 1/10), (2/5, 3/10)]), points := some [(1/10, 1/10), (2/5, 3/10)], color := some "#112233", strokeWidth := some 2 },
        { baseMarkup with id := "t1", page := 0, type := MarkupType.text, bounds := some ⟨1/2, 1/2, 1/5, 1/20⟩, text := some "hello", fontSize := some 12, color := some "#000000" },
        { baseMarkup with id := "c1", page := 0, type := MarkupType.comment, bounds := some ⟨1/4, 1/4, 2 * commentRadius ((3/100) * 100) ((3/100) * 100) / 100, 2 * commentRadius ((3/100) * 100) ((3/100) * 100) / 100⟩, text := some "" }] := by
    unfold fabricRoundTripPage loadPageObjects serializeObjects c5list c5hl c5ink
      c5txt c5cmt
    rw [List.filterMap_filterMap]
    simp only [List.filter_cons, List.filter_nil, beq_self_eq_true, if_pos]
    simp only [List.filterMap_cons, List.filterMap_nil, e1, e2, e3, e4]
  refine ⟨?_, ?_, rfl, ?_, rfl⟩
  · rw [hstep]
    intro hc
    have h0 := congrArg (fun l => (l.getD 0 baseMarkup).color) hc
    simp only [c5list, c5hl, List.getD_cons_zero] at h0
    exact absurd h0 (by decide)
  · rw [hstep]
    rfl
  · rw [hstep]
    rfl

/-- Witness for C5's amended theorem at the concrete four-variant list on a
100 × 100 page. -/
theorem backend_roundtrip_amended_witness :
    fabricRoundTripPage c5list 0 100 100 =
      [{ baseMarkup with id := "h1", page := 0, type := MarkupType.highlight, bounds := some ⟨1/10, 1/10, 1/5, 1/10⟩, color := some "#ffeb3b" },
        { baseMarkup with id := "i1", page := 0, type := MarkupType.ink, bounds := some (pointsBBox [(1/10, 1/10), (2/5, 3/10)]), points := some [(1/10, 1/10), (2/5, 3/10)], color := some "#112233", strokeWidth := some 2 },
        { baseMarkup with id := "t1", page := 0, type := MarkupType.text, bounds := some ⟨1/2, 1/2, 1/5, 1/20⟩, text := some "hello", fontSize := some 12, color := some "#000000" },
        { baseMarkup with id := "c1", page := 0, type := MarkupType.comment, bounds := some ⟨1/4, 1/4, 2 * commentRadius ((3/100) * 100) ((3/100) * 100) / 100, 2 * commentRadius ((3/100) * 100) ((3/100) * 100) / 100⟩, text := some "" }] ∧
    (∀ (markups : List Markup) (st : St),
      overlaySerializeToModel (overlayLoad markups st) = markups) :=
  backend_roundtrip_amended 100 100 (by norm_num) (by norm_num) 0
    "h1" "#ff0000" (by decide) ⟨1/10, 1/10, 1/5, 1/10⟩ (by norm_num) (by norm_num)
    "i1" "#112233" (by decide) (by decide) (by decide)
    ⟨0, 0, 1/2, 1/2⟩ [(1/10, 1/10), (2/5, 3/10)] (by decide) 2 (by norm_num)
    (by norm_num [pointsBBox, listMinQ, listMaxQ])
    (by norm_num [pointsBBox, listMinQ, listMaxQ])
    "t1" "#000000" "hello" (by decide) (by decide) (by decide) (by decide)
    ⟨1/2, 1/2, 1/5, 1/20⟩ (by norm_num) (by norm_num) 12 (by norm_num)
    "c1" "a note" (by decide) ⟨1/4, 1/4, 3/100, 3/100⟩ (by norm_num) (by norm_num)

/-- The comment markup whose snapshot is being restored in the C7 run; its
text is what the faulty re-serialization during installation erases. -/
def c7cmt : Markup :=
  { baseMarkup with
    id := "c7"
    page := 0
    type := MarkupType.comment
    bounds := some ⟨1/4, 1/4, 3/100, 3/100⟩
    text := some "note" }

/-- The C7 scenario: page 0 has an attached (currently empty) canvas at
unit scale; the undo stack holds the snapshot with the comment. -/
def c7fs : FabricSt :=
  { st := { initialSt with
      markups := []
      undoStack := [[c7cmt]] }
    canvases := [{ pageIndex := 0, width := 1, height := 1, objects := [] }] }

/-- The backend object the comment markup loads into at unit scale. -/
def c7obj : FabricObject :=
  { fabricBaseObject with
    left := 1/4
    top := 1/4
    radius := some (commentRadius (3/100) (3/100))
    width := 2 * commentRadius (3/100) (3/100)
    height := 2 * commentRadius (3/100) (3/100)
    fill := some "#8b5cf6"
    data := some { id := "c7", page := 0, markupType := MarkupType.comment, points := none, commentText := some "note" } }

theorem c7step1 : markupToFabricObject c7cmt 1 1 = some c7obj := by
  have h3 : (3/100 : ℚ) ≠ 0 := by norm_num
  simp [markupToFabricObject, c7cmt, baseMarkup, c7obj, fabricBaseObject, h3,
    jsOrStr, jsOrOptStr]

theorem c7step2 : objectToMarkup c7obj 0 1 1 = some { baseMarkup with
    id := "c7"
    page := 0
    type := MarkupType.comment
    bounds := some ⟨1/4, 1/4, 2 * commentRadius (3/100) (3/100),
      2 * commentRadius (3/100) (3/100)⟩
    text := some "" } := by
  have hr : (2 : ℚ) * commentRadius (3/100) (3/100) ≠ 0 := by
    have h := commentRadius_pos (3/100 : ℚ) (3/100)
    positivity
  simp [objectToMarkup, c7obj, baseMarkup, fabricBaseObject, hr, jsOrStr,
    div_one, mul_one]

/-- C7 (code bug): part_002's `undo()` clears `state.isUndoRedo` before
calling `loadMarkupsIntoFabric`, so the `object:added` / `object:removed`
handlers fired during the installation are not suppressed — their guard
`if (state.isUndoRedo) return` is dead code — and `syncPageToState`
overwrites the just-installed canonical sequence with the backend's
re-serialization: restoring a snapshot holding a comment with text "note"
ends with that comment's text erased to "" in `state.markups`, not with
the snapshot.  (No spurious undo entry is pushed — the sync path contains
no snapshot capture — so the undo stack still ends empty.) -/
theorem undo_reentrancy_counterexample :
    (undoFabric c7fs).st.markups ≠ c7fs.st.undoStack.getLastD [] ∧
    (undoFabric c7fs).st.markups.map (fun m => m.text) = [some ""] ∧
    (c7fs.st.undoStack.getLastD []).map (fun m => m.text) = [some "note"] ∧
    (undoFabric c7fs).st.undoStack = [] := by
  have hfinal : (undoFabric c7fs).st.markups.map (fun m => m.text) = [some ""] ∧
      (undoFabric c7fs).st.undoStack = [] := by
    have hpage : c7cmt.page = 0 := rfl
    unfold undoFabric c7fs
    simp [loadMarkupsIntoFabric, canvasRemoveAll, canvasRemoveFirst,
      canvasAddObject, onObjectChanged, syncPageToState, serializePageToMarkups,
      serializeObjects, serializeAllFabricToMarkups, scheduleSave, initialSt,
      hpage, c7step1, c7step2]
  refine ⟨?_, hfinal.1, rfl, hfinal.2⟩
  intro hc
  have h0 := congrArg (fun l => l.map (fun m => m.text)) hc
  simp only at h0
  rw [hfinal.1] at h0
  have h1 : (c7fs.st.undoStack.getLastD []).map (fun m => m.text) =
      [some "note"] := rfl
  rw [h1] at h0
  exact absurd h0 (by decide)

end PdfEditor
